import Mathlib

/-!
# Verification of the Excel metadata-extraction core (`large_file_handler.py`)

Shallow embedding of `ExcelMetadataExtractor` and `LargeFileAnalyzer` from
`large_file_handler.py`, together with spec-side definitions used to check the
natural-language specification against the code.

Conventions of the embedding:
* Spreadsheet cell values delivered by openpyxl (`data_only=True` read-only
  mode) are `Option PyValue`; `none` is Python `None` (an empty cell).
* A Python `set` of strings is modelled as a duplicate-free list in insertion
  order (`pySetAdd` inserts only if absent).  Only the size and the membership
  of the set are observable in the properties below; Python's own iteration
  order over a set is arbitrary.
* Machine integers are `Int`/`Nat`; Python `//` (floor division) is `Int.fdiv`.
-/

namespace LargeFileHandler

/-- A non-`None` Python value as delivered by openpyxl for a cell.
Floats and datetimes are opaque here (only their class membership and their
`str` rendering are ever used by the extractor). -/
inductive PyValue where
  | int (n : Int)
  | float (repr : String)
  | bool (b : Bool)
  | datetime (repr : String)
  | str (s : String)
  | other (repr : String)
  deriving DecidableEq, Repr

/-- Model of Python `str(value)` for cell values. -/
def pyStr : PyValue → String
  | .int n => toString n
  | .float r => r
  | .bool b => if b then "True" else "False"
  | .datetime r => r
  | .str s => s
  | .other r => r

/-- Model of Python `isinstance(value, (int, float))`.
`bool` is a subclass of `int` in Python, so boolean values satisfy this test. -/
def isinstance_int_float : PyValue → Bool
  | .int _ => true
  | .float _ => true
  | .bool _ => true
  | _ => false

/-- Model of Python `isinstance(value, datetime)`. -/
def isinstance_datetime : PyValue → Bool
  | .datetime _ => true
  | _ => false

/-- Model of Python `isinstance(value, bool)`. -/
def isinstance_bool : PyValue → Bool
  | .bool _ => true
  | _ => false

/-- The `type_counts` dictionary of `_infer_data_type`, with its fixed
insertion order numeric, date, text, boolean. -/
structure TypeCounts where
  numeric : Nat
  date : Nat
  text : Nat
  boolean : Nat
  deriving DecidableEq, Repr

/-- One iteration of the counting loop of `_infer_data_type`
(`if isinstance(value, (int, float)) ... elif ... else ...`). -/
def tallyValue (tc : TypeCounts) (value : PyValue) : TypeCounts :=
  if isinstance_int_float value then { tc with numeric := tc.numeric + 1 }
  else if isinstance_datetime value then { tc with date := tc.date + 1 }
  else if isinstance_bool value then { tc with boolean := tc.boolean + 1 }
  else { tc with text := tc.text + 1 }

/-- Model of Python `max(type_counts, key=type_counts.get)`: iterate the keys
in dictionary insertion order and keep the first key whose count is maximal
(a later key replaces the current best only when strictly greater). -/
def maxTypeKey (tc : TypeCounts) : String :=
  let pairs := [("date", tc.date), ("text", tc.text), ("boolean", tc.boolean)]
  (pairs.foldl (fun best q => if q.2 > best.2 then q else best)
    ("numeric", tc.numeric)).1

/-- Embedding of `ExcelMetadataExtractor._infer_data_type`. -/
def infer_data_type (values : List PyValue) : String :=
  if values.isEmpty then "empty"
  else maxTypeKey (values.foldl tallyValue ⟨0, 0, 0, 0⟩)

/-- Embedding of `ExcelMetadataExtractor._get_excel_column_letter`
(`while col_idx > 0: col_idx -= 1; result = chr(col_idx % 26 + 65) + result;
col_idx //= 26`). -/
def get_excel_column_letter (col_idx : Nat) : String :=
  if h : col_idx = 0 then ""
  else
    get_excel_column_letter ((col_idx - 1) / 26) ++
      String.singleton (Char.ofNat ((col_idx - 1) % 26 + 65))
termination_by col_idx
decreasing_by
  exact Nat.lt_of_le_of_lt (Nat.div_le_self _ _) (Nat.sub_lt (Nat.pos_of_ne_zero h) one_pos)

/-- The tiered sampling-strategy selection of `_extract_sheet_metadata`
(lines 137–163): returns `(sample_size, step)`. -/
def samplingStrategy (max_row chunk_size : Int) : Int × Int :=
  if max_row > 100000 then
    (min 100 chunk_size, 1)
  else if max_row > 10000 then
    let sample_size := min 200 chunk_size
    (sample_size, max 1 ((max_row - 1).fdiv sample_size))
  else
    (min chunk_size (max_row - 1), 1)

/-- The row indices actually read by the sampling loop
(`for i in range(sample_size): row_idx = 2 + i*step; if row_idx > max_row:
break; ...`): the loop breaks at the first index beyond `max_row`. -/
def sampledRowIndices (max_row sample_size step : Int) : List Int :=
  (((List.range sample_size.toNat).map (fun i => 2 + (i : Int) * step)).takeWhile
    (fun row_idx => !(row_idx > max_row)))

/-- A worksheet as seen through openpyxl's read-only API: its reported
dimensions and the value of every cell (1-based `row`, `column`).
openpyxl reports `max_row ≥ 1` and `max_column ≥ 1` for any sheet. -/
structure SheetData where
  maxRow : Nat
  maxCol : Nat
  cell : Nat → Nat → Option PyValue

/-- Model of `sheet.iter_rows(min_row=r, max_row=r, min_col=1, max_col=max_col,
values_only=True)` yields one tuple of `max_col` cell values for row `r`
(missing cells are padded with `None`). -/
def rowValues (sheet : SheetData) (row_idx : Nat) : List (Option PyValue) :=
  (List.range sheet.maxCol).map (fun j => sheet.cell row_idx (j + 1))

/-- The header names read from row 1 (lines 130–133):
`str(cell_value)` when the cell is not `None`, else `"Column_{col_idx}"`. -/
def headerNames (sheet : SheetData) : List String :=
  (List.range sheet.maxCol).map (fun j =>
    match sheet.cell 1 (j + 1) with
    | some v => pyStr v
    | none => "Column_" ++ toString (j + 1))

/-- Python `set.add` on a set of strings, modelled as a duplicate-free list in
insertion order. -/
def pySetAdd (s : List String) (x : String) : List String :=
  if x ∈ s then s else s ++ [x]

/-- The per-column accumulation dictionary initialised at lines 167–177. -/
structure ColMetaAcc where
  name : String
  index : Nat
  excel_column : String
  data_type : String
  sample_values : List PyValue
  null_count : Nat
  unique_values_sample : List String
  rows_sampled : Nat
  deriving DecidableEq, Repr

/-- Processing of one cell value of a sampled row (lines 213–221):
non-null values are appended to `sample_values` while fewer than 100 are
stored and always added (string-truncated to 100 characters) to the unique
set; null values increment `null_count`. -/
def updateCol (col_meta : ColMetaAcc) (value : Option PyValue) : ColMetaAcc :=
  match value with
  | some v =>
    let col_meta :=
      if col_meta.sample_values.length < 100 then
        { col_meta with sample_values := col_meta.sample_values ++ [v] }
      else col_meta
    { col_meta with
        unique_values_sample := pySetAdd col_meta.unique_values_sample ((pyStr v).take 100) }
  | none => { col_meta with null_count := col_meta.null_count + 1 }

/-- One iteration of the sampling loop body after the break check
(lines 200–221): read the whole row, increment `rows_sampled`, update each
column's accumulator with its cell value.  `iter_rows` with explicit
`min_row = max_row = row_idx ≤ max_row` always yields exactly one row, so the
`if not row_cells: continue` guard never fires; the inner loop stops at
`min(len(row_values), len(column_metadata))`, which `List.zipWith` mirrors. -/
def processRow (sheet : SheetData) (st : List ColMetaAcc × Nat) (row_idx : Int) :
    List ColMetaAcc × Nat :=
  (List.zipWith updateCol st.1 (rowValues sheet row_idx.toNat), st.2 + 1)

/-- A finalized column profile (after lines 224–230). -/
structure ColumnProfile where
  name : String
  index : Nat
  excel_column : String
  data_type : String
  sample_values : List String
  null_count : Nat
  unique_values_count : Nat
  unique_values_sample : List String
  rows_sampled : Nat
  sampling_step : Int
  deriving DecidableEq, Repr

/-- A default profile, used only to state theorems with `List.getD`. -/
def defaultProfile : ColumnProfile :=
  { name := "", index := 0, excel_column := "", data_type := "",
    sample_values := [], null_count := 0, unique_values_count := 0,
    unique_values_sample := [], rows_sampled := 0, sampling_step := 0 }

/-- Finalization of one column's accumulator (lines 224–230).  The type is
inferred from the stored `sample_values` before they are truncated to 5
stringified previews; `unique_values_count` is the size of the unique set
before it is truncated to 10 entries. -/
def finalizeCol (c : ColMetaAcc) (rows_sampled : Nat) (step : Int) : ColumnProfile :=
  { name := c.name, index := c.index, excel_column := c.excel_column,
    data_type := infer_data_type c.sample_values,
    sample_values := (c.sample_values.take 5).map (fun v => (pyStr v).take 100),
    null_count := c.null_count,
    unique_values_count := c.unique_values_sample.length,
    unique_values_sample := c.unique_values_sample.take 10,
    rows_sampled := rows_sampled,
    sampling_step := step }

/-- Sheet-level metadata (lines 232–239). -/
structure SheetMetadata where
  name : String
  estimated_rows : Int
  columns : List ColumnProfile
  has_header : Bool
  data_range : String
  sampling_strategy : String
  deriving DecidableEq, Repr

/-- The initial per-column accumulators (lines 166–177). -/
def initColumnMetadata (sheet : SheetData) : List ColMetaAcc :=
  (headerNames sheet).mapIdx (fun j header =>
    { name := header, index := j, excel_column := get_excel_column_letter (j + 1),
      data_type := "unknown", sample_values := [], null_count := 0,
      unique_values_sample := [], rows_sampled := 0 })

/-- Embedding of `ExcelMetadataExtractor._extract_sheet_metadata`. -/
def extract_sheet_metadata (sheet_name : String) (sheet : SheetData)
    (chunk_size : Int) : SheetMetadata :=
  let max_row := sheet.maxRow
  let max_col := sheet.maxCol
  let strat := samplingStrategy (max_row : Int) chunk_size
  let sample_size := strat.1
  let step := strat.2
  let column_metadata := initColumnMetadata sheet
  let final := (sampledRowIndices (max_row : Int) sample_size step).foldl
    (processRow sheet) (column_metadata, 0)
  let rows_sampled := final.2
  { name := sheet_name,
    estimated_rows := (max_row : Int) - 1,
    columns := final.1.map (fun c => finalizeCol c rows_sampled step),
    has_header := true,
    data_range := "A1:" ++ get_excel_column_letter max_col ++ toString max_row,
    sampling_strategy :=
      "Sampled " ++ toString sample_size ++ " rows with step=" ++ toString step }

/-- Exceptions that can surface from a run of the extractor.
`fileNotFoundError` models the builtin `FileNotFoundError`/`OSError` raised by
`os.path.getsize` in `ExcelMetadataExtractor.__init__` when the path does not
exist; `sheetReadError` models an openpyxl exception raised while reading a
sheet inside `_extract_sheet_metadata`; `readExcelUnsupportedKwarg` models the
exception pandas raises when `read_excel` is called with a keyword it does not
accept (a `TypeError` in pandas ≥ 1.0, a `NotImplementedError` for `chunksize`
in older pandas). -/
inductive PyError where
  | fileNotFoundError
  | sheetReadError
  | readExcelUnsupportedKwarg
  deriving DecidableEq, Repr

/-- A workbook as returned by `load_workbook(read_only=True, data_only=True)`:
the sheets in workbook order.  Reading a sheet either succeeds with its data
or raises (corrupt ranges, unexpected structure), which is recorded here as
the outcome `Except PyError SheetData` of that read. -/
structure Workbook where
  sheets : List (String × Except PyError SheetData)

/-- The `file_info` part of the metadata dictionary (lines 60–66).  `size_mb` is a
floating-point rendering of `size_bytes` and is not modelled; `extraction_time`
is the wall-clock timestamp string produced by `datetime.now().isoformat()`. -/
structure FileInfo where
  path : String
  filename : String
  size_bytes : Nat
  extraction_time : String
  deriving DecidableEq, Repr

/-- The `statistics` part of the metadata dictionary (lines 68–73 and 94–97). -/
structure Statistics where
  total_sheets : Nat
  total_columns : Nat
  estimated_total_rows : Int
  deriving DecidableEq, Repr

/-- The full metadata dictionary assembled by `extract_metadata`. -/
structure FileMetadata where
  file_info : FileInfo
  sheets : List SheetMetadata
  statistics : Statistics
  deriving DecidableEq, Repr

/-- The state of `ExcelMetadataExtractor` after `__init__` succeeded. -/
structure ExcelMetadataExtractor where
  file_path : String
  chunk_size : Int
  file_size : Nat
  deriving DecidableEq, Repr

/-- The per-sheet loop of `extract_metadata` (lines 81–95): process sheets
strictly in order; an exception while reading a sheet propagates immediately
(fail-fast), no later sheet is touched. -/
def extractSheets (chunk_size : Int) :
    List (String × Except PyError SheetData) → Except PyError (List SheetMetadata)
  | [] => .ok []
  | (sheet_name, .error e) :: _ => .error e
  | (sheet_name, .ok sd) :: rest =>
    (extractSheets chunk_size rest).map (extract_sheet_metadata sheet_name sd chunk_size :: ·)

/-- Model of `os.path.basename`. -/
def pathBasename (p : String) : String :=
  ((p.splitOn "/").getLast? ).getD p

/-- Embedding of `ExcelMetadataExtractor.extract_metadata`, with the timestamp `now` passed
explicitly (the only wall-clock input of the structural result).  The second
component records whether the workbook handle was closed: the source calls
`wb.close()` only after the sheet loop completes (line 100) — there is no
`try/finally` — so an exception raised while extracting a sheet propagates
with the handle still open. -/
def extract_metadata (ex : ExcelMetadataExtractor) (wb : Workbook) (now : String) :
    Except PyError FileMetadata × Bool :=
  match extractSheets ex.chunk_size wb.sheets with
  | .error e => (.error e, false)
  | .ok sheetMetas =>
    (.ok
      { file_info :=
          { path := ex.file_path, filename := pathBasename ex.file_path,
            size_bytes := ex.file_size, extraction_time := now },
        sheets := sheetMetas,
        statistics :=
          { total_sheets := sheetMetas.length,
            total_columns := (sheetMetas.map (fun s => s.columns.length)).sum,
            estimated_total_rows := (sheetMetas.map (fun s => s.estimated_rows)).sum } },
      true)

/-- A filesystem fragment: each existing path carries the workbook file's byte
size and its parsed content. -/
structure FileSystem where
  entries : List (String × (Nat × Workbook))

/-- Model of `os.path.getsize`, raising for a missing path. -/
def osPathGetsize (fs : FileSystem) (p : String) : Except PyError Nat :=
  match fs.entries.lookup p with
  | some (size, _) => .ok size
  | none => .error .fileNotFoundError

/-- Embedding of `ExcelMetadataExtractor.__init__`: stores the path and chunk size and calls
`os.path.getsize(file_path)` — the first filesystem access of a run, made
before any workbook handle is opened. -/
def extractorInit (fs : FileSystem) (file_path : String) (chunk_size : Int) :
    Except PyError ExcelMetadataExtractor :=
  (osPathGetsize fs file_path).map
    (fun size => { file_path := file_path, chunk_size := chunk_size, file_size := size })

/-- Observable side effects of one run: how many workbook handles were opened
and which output files were written. -/
structure RunTrace where
  workbook_opens : Nat
  files_written : List String
  deriving DecidableEq, Repr

/-- Embedding of `LargeFileAnalyzer.extract_and_save_metadata` end to end, with the trace of
workbook opens and file writes: construct the extractor (which calls
`os.path.getsize`), open the workbook (`load_workbook`, line 57), extract, and
only on success write `<run_id>_metadata.json` via `save_metadata`. -/
def extract_and_save_metadata (fs : FileSystem) (file_path : String)
    (chunk_size : Int) (run_id now : String) :
    Except PyError FileMetadata × RunTrace :=
  match extractorInit fs file_path chunk_size with
  | .error e => (.error e, { workbook_opens := 0, files_written := [] })
  | .ok ex =>
    match fs.entries.lookup file_path with
    | none => (.error .fileNotFoundError, { workbook_opens := 0, files_written := [] })
    | some (_, wb) =>
      match extract_metadata ex wb now with
      | (.error e, _) => (.error e, { workbook_opens := 1, files_written := [] })
      | (.ok md, _) =>
        (.ok md, { workbook_opens := 1, files_written := [run_id ++ "_metadata.json"] })

/-- The keyword parameters of `pandas.read_excel` (pandas' documented public
signature; pandas is a third-party dependency, not part of this repository).
No released pandas version accepts a `chunksize` keyword on `read_excel`. -/
def pdReadExcelKeywords : List String :=
  ["io", "sheet_name", "header", "names", "index_col", "usecols", "dtype",
   "engine", "converters", "true_values", "false_values", "skiprows", "nrows",
   "na_values", "keep_default_na", "na_filter", "verbose", "parse_dates",
   "date_parser", "date_format", "thousands", "decimal", "comment",
   "skipfooter", "storage_options", "dtype_backend", "engine_kwargs"]

/-- A call to `pandas.read_excel` with the given keyword-argument names:
pandas raises before reading anything when handed a keyword it does not accept
(`TypeError` in pandas ≥ 1.0; for `chunksize` specifically, older pandas raised
`NotImplementedError`).  The successful payload is irrelevant here. -/
def pdReadExcelCall (kwarg_names : List String) : Except PyError Unit :=
  if kwarg_names.all (fun k => pdReadExcelKeywords.contains k) then .ok ()
  else .error .readExcelUnsupportedKwarg

/-- Embedding of `ExcelMetadataExtractor.get_chunk_iterator` (lines 283–303): resolves the
chunk size (`chunk_size or self.chunk_size` — Python `or` takes the default
when the argument is falsy, i.e. `None` or `0`) and iterates
`pd.read_excel(self.file_path, sheet_name=sheet_name, chunksize=chunk_size,
engine='openpyxl')`.  The generator body runs on the first `next()`; its first
action is this `read_excel` call, whose outcome is returned here. -/
def get_chunk_iterator_first_step (ex : ExcelMetadataExtractor)
    (sheet_name : String) (chunk_size : Option Int) : Except PyError Unit :=
  let resolved := match chunk_size with
    | some c => if c = 0 then ex.chunk_size else c
    | none => ex.chunk_size
  let _ := (sheet_name, resolved)
  pdReadExcelCall ["sheet_name", "chunksize", "engine"]

/-! ## Spec-side definitions

Definitions in this section follow the words of the specification (and of the
claims derived from it), to be compared with the code-side definitions above.
-/

/-- The enumeration order of types fixed by the spec's tie-break policy. -/
def specTypeOrder : List String := ["numeric", "date", "text", "boolean"]

/-- Classification of a single non-null value exactly as the claim words it:
"a Python boolean value is classified as boolean, a datetime as date, an int
or float as numeric, anything else as text". -/
def specClassifyC1 : PyValue → String
  | .bool _ => "boolean"
  | .datetime _ => "date"
  | .int _ => "numeric"
  | .float _ => "numeric"
  | .str _ => "text"
  | .other _ => "text"

/-- Classification amended to what the code does: a Python boolean is an
instance of `int` (the `isinstance(value, (int, float))` test captures it
first), so booleans are classified as numeric and the boolean branch never
fires; a datetime is date; an int or float is numeric; anything else is text. -/
def specClassifyC1Amended : PyValue → String
  | .bool _ => "numeric"
  | .datetime _ => "date"
  | .int _ => "numeric"
  | .float _ => "numeric"
  | .str _ => "text"
  | .other _ => "text"

/-- "the winner is the first in the fixed enumeration order numeric, date,
text, boolean" among the types tied for the maximum count. -/
def specFirstMaxLabel (count : String → Nat) : String :=
  match specTypeOrder with
  | [] => ""
  | l :: rest =>
    (rest.foldl (fun best q => if count q > best.2 then (q, count q) else best)
      (l, count l)).1

/-- The claim's description of the type inference, as stated: majority vote
with boolean values classified as boolean; `"empty"` when no values. -/
def specInferDataTypeC1 (values : List PyValue) : String :=
  if values.isEmpty then "empty"
  else specFirstMaxLabel (fun l => values.countP (fun v => specClassifyC1 v = l))

/-- The claim's description of the type inference, amended: majority vote with
boolean values classified as numeric; `"empty"` when no values. -/
def specInferDataTypeC1Amended (values : List PyValue) : String :=
  if values.isEmpty then "empty"
  else specFirstMaxLabel (fun l => values.countP (fun v => specClassifyC1Amended v = l))

/-- The tiered sampling strategy exactly as the claim words it:
`max_row > 100,000` gives `(min(100, chunk_size), 1)`;
`10,000 < max_row ≤ 100,000` gives `sample_size = min(200, chunk_size)` and
`step = floor((max_row − 1) / sample_size)`;
`max_row ≤ 10,000` gives `(min(chunk_size, max_row − 1), 1)`. -/
def specSamplingStrategyC5 (max_row chunk_size : Int) : Int × Int :=
  if max_row > 100000 then
    (min 100 chunk_size, 1)
  else if 10000 < max_row ∧ max_row ≤ 100000 then
    let sample_size := min 200 chunk_size
    (sample_size, (max_row - 1).fdiv sample_size)
  else
    (min chunk_size (max_row - 1), 1)

/-- The claim's header-naming rule: the stringified value of the row-1 header
cell when that cell is non-None, otherwise the synthetic name `"Column_{n}"`
for the 1-based column index `n`. -/
def specHeaderNameC10 (sheet : SheetData) (n : Nat) : String :=
  match sheet.cell 1 n with
  | some v => pyStr v
  | none => "Column_" ++ toString n

/-- The spec's error taxonomy: `FileAccessError` is the class of errors for a
file that is missing, unreadable, or not a recognized spreadsheet format.  The
builtin `FileNotFoundError` the code raises for a missing path belongs to it. -/
def isFileAccessError : PyError → Bool
  | .fileNotFoundError => true
  | _ => false

/-- The structural part of a column profile named by the determinism claim:
`data_type`, `null_count`, `rows_sampled` and `sampling_step`. -/
def structuralColumnView (c : ColumnProfile) : String × Nat × Nat × Int :=
  (c.data_type, c.null_count, c.rows_sampled, c.sampling_step)

/-- The structural part of the metadata named by the determinism claim: row
and column counts, data ranges, the per-column structural fields, and the
aggregate statistics — everything except the `extraction_time` timestamp and
the sample previews. -/
def structuralView (md : FileMetadata) :
    List (Int × Nat × String × List (String × Nat × Nat × Int)) × Statistics :=
  (md.sheets.map (fun s =>
      (s.estimated_rows, s.columns.length, s.data_range,
        s.columns.map structuralColumnView)),
    md.statistics)

/-- Number of non-null values of column `j` (0-based) among the rows actually
read by the sampling pass — the spec's "non-null sampled" count. -/
def nonNullSampledCount (sheet : SheetData) (chunk_size : Int) (j : Nat) : Nat :=
  let strat := samplingStrategy (sheet.maxRow : Int) chunk_size
  ((sampledRowIndices (sheet.maxRow : Int) strat.1 strat.2).countP
    (fun row_idx => (sheet.cell row_idx.toNat (j + 1)).isSome))

/-- All non-null values of column `j` (0-based) among the rows actually read
by the sampling pass, in sampling order. -/
def allNonNullSampledValues (sheet : SheetData) (chunk_size : Int) (j : Nat) :
    List PyValue :=
  let strat := samplingStrategy (sheet.maxRow : Int) chunk_size
  (sampledRowIndices (sheet.maxRow : Int) strat.1 strat.2).filterMap
    (fun row_idx => sheet.cell row_idx.toNat (j + 1))

/-- Boolean success test for `Except`. -/
def exceptIsOk {ε α : Type _} : Except ε α → Bool
  | .ok _ => true
  | .error _ => false

/-! ## Auxiliary definitions for the proofs -/

/-- A default accumulator, used only to state lemmas with `List.getD`. -/
def defaultAcc : ColMetaAcc :=
  { name := "", index := 0, excel_column := "", data_type := "",
    sample_values := [], null_count := 0, unique_values_sample := [],
    rows_sampled := 0 }

/-- The effect of one sampled row on the accumulator of column `j` (0-based)
alone: update it with the row's cell in that column. -/
def colUpdateStep (sheet : SheetData) (j : Nat) (c : ColMetaAcc) (row_idx : Int) :
    ColMetaAcc :=
  updateCol c (sheet.cell row_idx.toNat (j + 1))

/-- The initial accumulator of column `j` (0-based), as built at
lines 167–177. -/
def initColAcc (sheet : SheetData) (j : Nat) : ColMetaAcc :=
  { name := (headerNames sheet).getD j "", index := j,
    excel_column := get_excel_column_letter (j + 1), data_type := "unknown",
    sample_values := [], null_count := 0, unique_values_sample := [],
    rows_sampled := 0 }

/-- The accumulator of column `j` after the whole sampling pass, seen as a
single-column left fold over the sampled row indices. -/
def colFold (sheet : SheetData) (chunk_size : Int) (j : Nat) : ColMetaAcc :=
  let strat := samplingStrategy (sheet.maxRow : Int) chunk_size
  (sampledRowIndices (sheet.maxRow : Int) strat.1 strat.2).foldl
    (colUpdateStep sheet j) (initColAcc sheet j)

/-- The number of rows actually read (and counted in `rows_sampled`) by the
sampling pass. -/
def numRowsSampled (sheet : SheetData) (chunk_size : Int) : Nat :=
  let strat := samplingStrategy (sheet.maxRow : Int) chunk_size
  (sampledRowIndices (sheet.maxRow : Int) strat.1 strat.2).length

/-! ## Concrete inputs used by witnesses and counterexamples -/

/-- A small two-column sheet: header row `("name", empty)`, data rows
`("a", 7)` and `("b", empty)`. -/
def sheetA : SheetData :=
  { maxRow := 3, maxCol := 2,
    cell := fun r c =>
      if r = 1 then (if c = 1 then some (.str "name") else none)
      else if r = 2 then
        (if c = 1 then some (.str "a") else if c = 2 then some (.int 7) else none)
      else if r = 3 then (if c = 1 then some (.str "b") else none)
      else none }

/-- A one-column sheet with 201 data rows whose first 100 data values are
integers and whose remaining 101 values are the string `"x"`: the type
inference sees only the first 100 stored samples, while the majority of all
sampled non-null values is text. -/
def capSheetC1 : SheetData :=
  { maxRow := 202, maxCol := 1,
    cell := fun r c =>
      if c = 1 then
        if r = 1 then some (.str "h")
        else if r ≤ 101 then some (.int (r : Int))
        else if r ≤ 202 then some (.str "x")
        else none
      else none }

/-- A one-column sheet with 111 pairwise-distinct data values: the unique set
grows to 111 entries during accumulation, above every constant cap appearing
in the accumulation code. -/
def uniqSheetC8 : SheetData :=
  { maxRow := 112, maxCol := 1,
    cell := fun r c => if c = 1 ∧ r ≤ 112 then some (.int (r : Int)) else none }

/-- A concrete extractor state (as after a successful `__init__`). -/
def exampleExtractor : ExcelMetadataExtractor :=
  { file_path := "data.xlsx", chunk_size := 1000, file_size := 123456 }

/-- A workbook whose second sheet raises while being read. -/
def badWorkbook : Workbook :=
  { sheets := [("Sheet1", .ok sheetA), ("Sheet2", .error .sheetReadError)] }

/-- A filesystem with no entries. -/
def emptyFS : FileSystem := { entries := [] }

/-! ## Lemmas about the type inference -/

/-- Running the counting loop of `_infer_data_type` tallies, for each label,
exactly the values the (amended) classification sends to that label. -/
theorem foldl_tallyValue (vs : List PyValue) (a : TypeCounts) :
    vs.foldl tallyValue a =
      ⟨a.numeric + vs.countP (fun v => specClassifyC1Amended v = "numeric"),
       a.date + vs.countP (fun v => specClassifyC1Amended v = "date"),
       a.text + vs.countP (fun v => specClassifyC1Amended v = "text"),
       a.boolean + vs.countP (fun v => specClassifyC1Amended v = "boolean")⟩ := by
  induction vs generalizing a with
  | nil => simp
  | cons v vs ih =>
    rw [List.foldl_cons, ih]
    cases v <;>
      simp [tallyValue, isinstance_int_float, isinstance_datetime, isinstance_bool,
        specClassifyC1Amended, List.countP_cons] <;>
      omega

/-- Python's `max(dict, key=dict.get)` over the four counts coincides with the
spec's first-maximal-label rule. -/
theorem maxTypeKey_firstMax (f : String → Nat) :
    maxTypeKey ⟨f "numeric", f "date", f "text", f "boolean"⟩ = specFirstMaxLabel f := rfl

/-- The code's type inference computes exactly the amended spec description
(majority with booleans counted as numeric, ties broken in enumeration
order). -/
theorem infer_eq_specAmended (vs : List PyValue) :
    infer_data_type vs = specInferDataTypeC1Amended vs := by
  by_cases h : vs.isEmpty
  · simp [infer_data_type, specInferDataTypeC1Amended, h]
  · simp only [infer_data_type, specInferDataTypeC1Amended, h, if_neg, Bool.false_eq_true,
      not_false_eq_true, if_false]
    rw [foldl_tallyValue,
      ← maxTypeKey_firstMax (fun l => vs.countP (fun v => specClassifyC1Amended v = l))]
    simp

/-! ## Lemmas about the sampling pass -/

/-- Lengths of the tuples yielded by the modelled `iter_rows`. -/
theorem length_rowValues (sheet : SheetData) (r : Nat) :
    (rowValues sheet r).length = sheet.maxCol := by
  simp [rowValues]

/-- Cell access into the tuple yielded by the modelled `iter_rows`. -/
theorem getElem_rowValues (sheet : SheetData) (r j : Nat)
    (h : j < (rowValues sheet r).length) :
    (rowValues sheet r)[j] = sheet.cell r (j + 1) := by
  simp [rowValues]

/-- The sampling loop never changes the number of column accumulators. -/
theorem foldl_processRow_length (sheet : SheetData) (idxs : List Int) :
    ∀ (st : List ColMetaAcc × Nat), st.1.length = sheet.maxCol →
      ((idxs.foldl (processRow sheet) st).1).length = sheet.maxCol := by
  induction idxs with
  | nil => intro st h; exact h
  | cons i rest ih =>
    intro st h
    rw [List.foldl_cons]
    exact ih _ (by simp [processRow, List.length_zipWith, length_rowValues, h])

/-- The `rows_sampled` counter counts exactly the processed row indices. -/
theorem foldl_processRow_count (sheet : SheetData) (idxs : List Int) :
    ∀ (st : List ColMetaAcc × Nat),
      (idxs.foldl (processRow sheet) st).2 = st.2 + idxs.length := by
  induction idxs with
  | nil => intro st; simp
  | cons i rest ih =>
    intro st
    rw [List.foldl_cons, ih]
    simp [processRow]
    omega

/-- The simultaneous per-row update of all columns projects, at each column
index, to the single-column fold over that column's cells. -/
theorem foldl_processRow_getD (sheet : SheetData) (idxs : List Int) :
    ∀ (st : List ColMetaAcc × Nat) (j : Nat), st.1.length = sheet.maxCol →
      j < sheet.maxCol →
      ((idxs.foldl (processRow sheet) st).1).getD j defaultAcc
        = idxs.foldl (colUpdateStep sheet j) (st.1.getD j defaultAcc) := by
  induction idxs with
  | nil => intro st j _ _; rfl
  | cons i rest ih =>
    intro st j hlen hj
    rw [List.foldl_cons, List.foldl_cons]
    have hlen2 : (processRow sheet st i).1.length = sheet.maxCol := by
      simp [processRow, List.length_zipWith, length_rowValues, hlen]
    rw [ih _ j hlen2 hj]
    congr 1
    have h1 : j < st.1.length := hlen ▸ hj
    have h2 : j < (rowValues sheet i.toNat).length := by
      rw [length_rowValues]; exact hj
    have h3 : j < (processRow sheet st i).1.length := hlen2 ▸ hj
    rw [List.getD_eq_getElem _ _ h3, List.getD_eq_getElem _ _ h1]
    show (List.zipWith updateCol st.1 (rowValues sheet i.toNat))[j] = _
    rw [List.getElem_zipWith, getElem_rowValues]
    rfl

/-- Length of the initial accumulator list. -/
theorem length_initColumnMetadata (sheet : SheetData) :
    (initColumnMetadata sheet).length = sheet.maxCol := by
  simp [initColumnMetadata, headerNames]

/-- The initial accumulator at column `j`. -/
theorem getD_initColumnMetadata (sheet : SheetData) (j : Nat) (hj : j < sheet.maxCol) :
    (initColumnMetadata sheet).getD j defaultAcc = initColAcc sheet j := by
  have h1 : j < (initColumnMetadata sheet).length := by
    rw [length_initColumnMetadata]; exact hj
  have h2 : j < (headerNames sheet).length := by
    simp [headerNames]; exact hj
  rw [List.getD_eq_getElem _ _ h1]
  show (List.mapIdx _ (headerNames sheet))[j] = _
  rw [List.getElem_mapIdx]
  unfold initColAcc
  rw [List.getD_eq_getElem _ _ h2]

/-- The finalized column profile at index `j` is the finalization of the
single-column fold, with `rows_sampled` the number of sampled rows and
`sampling_step` the chosen step. -/
theorem columns_getD (sheet_name : String) (sheet : SheetData) (chunk_size : Int)
    (j : Nat) (hj : j < sheet.maxCol) :
    (extract_sheet_metadata sheet_name sheet chunk_size).columns.getD j defaultProfile
      = finalizeCol (colFold sheet chunk_size j) (numRowsSampled sheet chunk_size)
          ((samplingStrategy (sheet.maxRow : Int) chunk_size).2) := by
  unfold extract_sheet_metadata
  simp only
  have hfl : ((sampledRowIndices (sheet.maxRow : Int)
      (samplingStrategy (sheet.maxRow : Int) chunk_size).1
      (samplingStrategy (sheet.maxRow : Int) chunk_size).2).foldl (processRow sheet)
      (initColumnMetadata sheet, 0)).1.length = sheet.maxCol :=
    foldl_processRow_length sheet _ _ (length_initColumnMetadata sheet)
  have h1 : j < ((sampledRowIndices (sheet.maxRow : Int)
      (samplingStrategy (sheet.maxRow : Int) chunk_size).1
      (samplingStrategy (sheet.maxRow : Int) chunk_size).2).foldl (processRow sheet)
      (initColumnMetadata sheet, 0)).1.length := hfl ▸ hj
  have h2 : j < (((sampledRowIndices (sheet.maxRow : Int)
      (samplingStrategy (sheet.maxRow : Int) chunk_size).1
      (samplingStrategy (sheet.maxRow : Int) chunk_size).2).foldl (processRow sheet)
      (initColumnMetadata sheet, 0)).1.map (fun c =>
        finalizeCol c ((sampledRowIndices (sheet.maxRow : Int)
          (samplingStrategy (sheet.maxRow : Int) chunk_size).1
          (samplingStrategy (sheet.maxRow : Int) chunk_size).2).foldl (processRow sheet)
          (initColumnMetadata sheet, 0)).2
          (samplingStrategy (sheet.maxRow : Int) chunk_size).2)).length := by
    rw [List.length_map]; exact h1
  rw [List.getD_eq_getElem _ _ h2, List.getElem_map]
  rw [← List.getD_eq_getElem _ defaultAcc h1]
  rw [foldl_processRow_getD sheet _ _ j (length_initColumnMetadata sheet) hj]
  rw [foldl_processRow_count]
  rw [getD_initColumnMetadata sheet j hj]
  show finalizeCol _ ((0 : Nat) + _) _ = _
  rw [Nat.zero_add]
  rfl

/-! ## Lemmas about a single column's accumulator -/

/-- Processing a cell never changes the column's name. -/
theorem updateCol_name (c : ColMetaAcc) (v : Option PyValue) :
    (updateCol c v).name = c.name := by
  cases v <;> simp [updateCol] <;> split <;> rfl

/-- The whole sampling pass never changes the column's name. -/
theorem foldl_colUpdate_name (sheet : SheetData) (j : Nat) (idxs : List Int) :
    ∀ (c : ColMetaAcc), (idxs.foldl (colUpdateStep sheet j) c).name = c.name := by
  induction idxs with
  | nil => intro c; rfl
  | cons i rest ih =>
    intro c
    rw [List.foldl_cons, ih]
    exact updateCol_name _ _

/-- Each processed row adds one to exactly one side of the null/non-null
partition of the column. -/
theorem foldl_colUpdate_null (sheet : SheetData) (j : Nat) (idxs : List Int) :
    ∀ (c : ColMetaAcc),
      (idxs.foldl (colUpdateStep sheet j) c).null_count
          + idxs.countP (fun i => (sheet.cell i.toNat (j + 1)).isSome)
        = c.null_count + idxs.length := by
  induction idxs with
  | nil => intro c; simp
  | cons i rest ih =>
    intro c
    rw [List.foldl_cons, List.countP_cons, List.length_cons]
    cases h : sheet.cell i.toNat (j + 1) with
    | none =>
      have := ih (colUpdateStep sheet j c i)
      simp only [colUpdateStep, h, updateCol] at this ⊢
      simp [h, this]
      omega
    | some v =>
      have := ih (colUpdateStep sheet j c i)
      have hnc : (colUpdateStep sheet j c i).null_count = c.null_count := by
        simp only [colUpdateStep, h, updateCol]
        split <;> rfl
      rw [hnc] at this
      simp [h, this]
      omega

/-- Adding to the modelled Python set grows it by at most one entry. -/
theorem pySetAdd_length (s : List String) (x : String) :
    (pySetAdd s x).length ≤ s.length + 1 := by
  unfold pySetAdd
  split
  · omega
  · simp

/-- The unique set grows by at most one entry per non-null sampled cell. -/
theorem foldl_colUpdate_unique (sheet : SheetData) (j : Nat) (idxs : List Int) :
    ∀ (c : ColMetaAcc),
      (idxs.foldl (colUpdateStep sheet j) c).unique_values_sample.length
        ≤ c.unique_values_sample.length
          + idxs.countP (fun i => (sheet.cell i.toNat (j + 1)).isSome) := by
  induction idxs with
  | nil => intro c; simp
  | cons i rest ih =>
    intro c
    rw [List.foldl_cons, List.countP_cons]
    refine le_trans (ih (colUpdateStep sheet j c i)) ?_
    cases h : sheet.cell i.toNat (j + 1) with
    | none =>
      simp only [colUpdateStep, h, updateCol]
      simp [h]
    | some v =>
      have hu : (colUpdateStep sheet j c i).unique_values_sample.length
          ≤ c.unique_values_sample.length + 1 := by
        simp only [colUpdateStep, h, updateCol]
        split <;> exact pySetAdd_length _ _
      simp only [h, Option.isSome_some]
      simp
      omega

/-- The stored `sample_values` after the pass are the first 100 non-null
sampled values of the column. -/
theorem foldl_colUpdate_samples (sheet : SheetData) (j : Nat) (idxs : List Int) :
    ∀ (c : ColMetaAcc), c.sample_values.length ≤ 100 →
      (idxs.foldl (colUpdateStep sheet j) c).sample_values
        = (c.sample_values
            ++ idxs.filterMap (fun i => sheet.cell i.toNat (j + 1))).take 100 := by
  induction idxs with
  | nil =>
    intro c hc
    simp [List.take_of_length_le hc]
  | cons i rest ih =>
    intro c hc
    rw [List.foldl_cons, List.filterMap_cons]
    cases h : sheet.cell i.toNat (j + 1) with
    | none =>
      have hstep : (colUpdateStep sheet j c i).sample_values = c.sample_values := by
        simp only [colUpdateStep, h, updateCol]
      have hlen2 : (colUpdateStep sheet j c i).sample_values.length ≤ 100 := by
        rw [hstep]; exact hc
      rw [ih _ hlen2, hstep]
    | some v =>
      by_cases hlt : c.sample_values.length < 100
      · have hstep : (colUpdateStep sheet j c i).sample_values
            = c.sample_values ++ [v] := by
          simp only [colUpdateStep, h, updateCol, if_pos hlt]
        have hlen2 : (colUpdateStep sheet j c i).sample_values.length ≤ 100 := by
          rw [hstep]; simp; omega
        rw [ih _ hlen2, hstep]
        simp
      · have h100 : c.sample_values.length = 100 := by omega
        have hstep : (colUpdateStep sheet j c i).sample_values = c.sample_values := by
          simp only [colUpdateStep, h, updateCol, if_neg hlt]
        have hlen2 : (colUpdateStep sheet j c i).sample_values.length ≤ 100 := by
          rw [hstep]; omega
        rw [ih _ hlen2, hstep]
        rw [List.take_append_eq_append_take, List.take_append_eq_append_take]
        rw [List.take_of_length_le (by omega), h100]
        simp

/-! ## Lemmas about the sampling strategy and the sampled indices -/

/-- The step chosen by every tier is at least 1. -/
theorem samplingStrategy_step_pos (max_row chunk_size : Int) :
    1 ≤ (samplingStrategy max_row chunk_size).2 := by
  unfold samplingStrategy
  split
  · exact le_refl 1
  · split
    · exact le_max_left 1 _
    · exact le_refl 1

/-- Every row index the sampling loop actually reads is within the sheet. -/
theorem sampledRowIndices_le (max_row sample_size step idx : Int)
    (h : idx ∈ sampledRowIndices max_row sample_size step) : idx ≤ max_row := by
  have := List.mem_takeWhile_imp h
  simpa using this

/-- Integer floor division agrees with natural division on the images of
natural numbers. -/
theorem ofNat_fdiv (m n : Nat) :
    ((m : Int)).fdiv ((n : Int)) = ((m / n : Nat) : Int) := by
  cases m with
  | zero =>
    show (Int.ofNat 0).fdiv (Int.ofNat n) = Int.ofNat (0 / n)
    simp [Int.fdiv, Nat.zero_div]
  | succ m =>
    show (Int.ofNat (m + 1)).fdiv (Int.ofNat n) = Int.ofNat ((m + 1) / n)
    rfl

/-- Header lookup agrees with the spec-side header-naming rule. -/
theorem headerNames_getD (sheet : SheetData) (j : Nat) (hj : j < sheet.maxCol) :
    (headerNames sheet).getD j "" = specHeaderNameC10 sheet (j + 1) := by
  have h2 : j < (headerNames sheet).length := by
    simpa [headerNames] using hj
  rw [List.getD_eq_getElem _ _ h2]
  simp [headerNames, specHeaderNameC10]

/-- One finalized profile is produced per column of the sheet. -/
theorem columns_length (sheet_name : String) (sheet : SheetData) (chunk_size : Int) :
    (extract_sheet_metadata sheet_name sheet chunk_size).columns.length = sheet.maxCol := by
  unfold extract_sheet_metadata
  simp only
  rw [List.length_map]
  exact foldl_processRow_length sheet _ _ (length_initColumnMetadata sheet)

/-! ## Claim theorems -/

set_option maxRecDepth 8000000 in
/-- C1, counterexample. The claim fails on the code in two ways, both shown at
concrete inputs: (a) a Python boolean is classified as numeric, not boolean,
because `bool` is a subclass of `int` and the `isinstance(value, (int, float))`
test fires first; (b) the type inference sees only the first 100 stored
non-null samples, so when the majority of all non-null sampled values differs
from the majority of the first 100 (here: 100 integers followed by 101
strings), the finalized `data_type` is not the majority of the non-null
sampled values. -/
theorem c1_data_type_majority_counterexample :
    (infer_data_type [PyValue.bool true] = "numeric" ∧
      specInferDataTypeC1 [PyValue.bool true] = "boolean") ∧
    (((extract_sheet_metadata "S" capSheetC1 1000).columns.getD 0 defaultProfile).data_type
        = "numeric" ∧
      specInferDataTypeC1 (allNonNullSampledValues capSheetC1 1000 0) = "text") := by
  constructor
  · constructor
    · decide
    · decide
  · constructor
    · decide
    · decide

/-- C1, amended: for every column, the finalized `data_type` is the majority
type of the first at most 100 non-null sampled values of the column (the
type-inference store is capped at 100), where a Python boolean counts as
numeric (`bool` is a subclass of `int`, so the boolean branch is unreachable),
a datetime as date, an int or float as numeric, and anything else as text;
`'empty'` when no non-null value was stored; ties resolve in the enumeration
order numeric, date, text, boolean. -/
theorem c1_data_type_majority_amended (sheet_name : String) (sheet : SheetData)
    (chunk_size : Int) (j : Nat) (hj : j < sheet.maxCol) :
    ((extract_sheet_metadata sheet_name sheet chunk_size).columns.getD j
        defaultProfile).data_type
      = specInferDataTypeC1Amended ((allNonNullSampledValues sheet chunk_size j).take 100) := by
  have hs : (colFold sheet chunk_size j).sample_values
      = (allNonNullSampledValues sheet chunk_size j).take 100 := by
    simp only [colFold, allNonNullSampledValues]
    rw [foldl_colUpdate_samples sheet j _ _ (by simp [initColAcc])]
    simp [initColAcc]
  rw [columns_getD sheet_name sheet chunk_size j hj]
  show infer_data_type (colFold sheet chunk_size j).sample_values = _
  rw [hs, infer_eq_specAmended]

/-- C1, witness for the amended theorem at a concrete sheet. -/
theorem c1_data_type_majority_amended_witness :
    0 < sheetA.maxCol ∧
    ((extract_sheet_metadata "Sheet1" sheetA 1000).columns.getD 0 defaultProfile).data_type
      = specInferDataTypeC1Amended ((allNonNullSampledValues sheetA 1000 0).take 100) :=
  ⟨by decide, c1_data_type_majority_amended "Sheet1" sheetA 1000 0 (by decide)⟩

/-- C2: for every filesystem in which the input path does not exist,
the run fails with the builtin file-not-found error — the class the spec's
taxonomy names `FileAccessError` — before any workbook handle is opened
(`os.path.getsize` in `__init__` raises first), and no output metadata file is
written. -/
theorem c2_missing_file_raises_file_access_error (fs : FileSystem)
    (file_path : String) (chunk_size : Int) (run_id now : String)
    (h : fs.entries.lookup file_path = none) :
    extract_and_save_metadata fs file_path chunk_size run_id now
        = (.error .fileNotFoundError, { workbook_opens := 0, files_written := [] }) ∧
    isFileAccessError .fileNotFoundError = true := by
  constructor
  · simp [extract_and_save_metadata, extractorInit, osPathGetsize, h, Except.map]
  · rfl

/-- C2, witness at a concrete empty filesystem. -/
theorem c2_missing_file_witness :
    emptyFS.entries.lookup "missing.xlsx" = none ∧
    (extract_and_save_metadata emptyFS "missing.xlsx" 1000 "run1" "2024-01-01"
        = (.error .fileNotFoundError, { workbook_opens := 0, files_written := [] }) ∧
      isFileAccessError .fileNotFoundError = true) :=
  ⟨rfl, c2_missing_file_raises_file_access_error emptyFS "missing.xlsx" 1000 "run1"
    "2024-01-01" rfl⟩

/-- C3, counterexample: on a workbook whose second sheet raises while being
read, extraction exits with an exception and the workbook handle is NOT
closed — `wb.close()` (line 100) is only reached after the sheet loop, there
is no `try/finally`.  This is an exit path on which the handle is not
released, refuting the claim that it is released on every exit path. -/
theorem c3_close_skipped_counterexample :
    exceptIsOk (extract_metadata exampleExtractor badWorkbook "2024-01-01T00:00:00").1 = false ∧
    (extract_metadata exampleExtractor badWorkbook "2024-01-01T00:00:00").2 = false := by
  constructor
  · decide
  · decide

/-- C3, amended: the workbook handle is closed exactly when extraction
completes normally; when any per-sheet extraction step raises, the exception
propagates with the handle still open. -/
theorem c3_close_iff_success_amended (ex : ExcelMetadataExtractor) (wb : Workbook)
    (now : String) :
    (extract_metadata ex wb now).2 = exceptIsOk (extract_metadata ex wb now).1 := by
  unfold extract_metadata
  cases extractSheets ex.chunk_size wb.sheets <;> rfl

/-- C4: every invocation of `get_chunk_iterator` fails as soon as the
generator is first advanced: the body calls `pandas.read_excel` with a
`chunksize` keyword, which no pandas version accepts, so pandas raises
(`TypeError`, or `NotImplementedError` in old pandas) and no chunk is ever
yielded — contradicting the function's own docstring ("Yields: DataFrame
chunks"). -/
theorem c4_get_chunk_iterator_always_raises (ex : ExcelMetadataExtractor)
    (sheet_name : String) (chunk_size : Option Int) :
    get_chunk_iterator_first_step ex sheet_name chunk_size
      = .error .readExcelUnsupportedKwarg := rfl

/-- C5: for every sheet with at least one row and every `chunk_size ≥ 1`, the
strategy the code picks equals the claim's tiered definition (the code's extra
`max(1, ·)` in the middle tier is redundant there, since
`floor((max_row − 1) / sample_size) ≥ 1` whenever `max_row > 10,000` and
`sample_size ≤ 200`); and `max_row ≤ 1` gives `sample_size = 0`. -/
theorem c5_sampling_strategy_matches_spec (max_row chunk_size : Int)
    (hr : 1 ≤ max_row) (hc : 1 ≤ chunk_size) :
    samplingStrategy max_row chunk_size = specSamplingStrategyC5 max_row chunk_size ∧
    (max_row ≤ 1 → (samplingStrategy max_row chunk_size).1 = 0) := by
  constructor
  · unfold samplingStrategy specSamplingStrategyC5
    by_cases h1 : max_row > 100000
    · rw [if_pos h1, if_pos h1]
    · by_cases h2 : max_row > 10000
      · have hand : 10000 < max_row ∧ max_row ≤ 100000 := ⟨h2, by omega⟩
        rw [if_neg h1, if_neg h1, if_pos h2, if_pos hand]
        have hs1 : (1 : Int) ≤ min 200 chunk_size := by omega
        have hs2 : min 200 chunk_size ≤ 200 := min_le_left _ _
        have key : 1 ≤ (max_row - 1).fdiv (min 200 chunk_size) := by
          obtain ⟨m, hm⟩ := Int.eq_ofNat_of_zero_le (by omega : (0 : Int) ≤ max_row - 1)
          obtain ⟨n, hn⟩ := Int.eq_ofNat_of_zero_le (by omega : (0 : Int) ≤ min 200 chunk_size)
          rw [hm, hn, ofNat_fdiv]
          have hnm : n ≤ m := by omega
          have hn0 : 0 < n := by omega
          have : 1 ≤ m / n := (Nat.one_le_div_iff hn0).mpr hnm
          exact_mod_cast this
        simp only
        rw [max_eq_right key]
      · have hand : ¬(10000 < max_row ∧ max_row ≤ 100000) := by omega
        rw [if_neg h1, if_neg h1, if_neg h2, if_neg hand]
  · intro hle
    have h1 : ¬(max_row > 100000) := by omega
    have h2 : ¬(max_row > 10000) := by omega
    unfold samplingStrategy
    rw [if_neg h1, if_neg h2]
    simp only
    omega

/-- C5, witness in the middle tier (50,000 rows, `chunk_size = 1000`). -/
theorem c5_sampling_strategy_witness :
    (1 : Int) ≤ 50000 ∧ (1 : Int) ≤ 1000 ∧
    (samplingStrategy 50000 1000 = specSamplingStrategyC5 50000 1000 ∧
      ((50000 : Int) ≤ 1 → (samplingStrategy 50000 1000).1 = 0)) :=
  ⟨by decide, by decide,
    c5_sampling_strategy_matches_spec 50000 1000 (by decide) (by decide)⟩

/-- C6: for every sheet, chunk size and column, the finalized `sampling_step`
is at least 1, and every row index actually read by the sampling pass is at
most the sheet's `max_row`. -/
theorem c6_sampling_step_and_indices (sheet_name : String) (sheet : SheetData)
    (chunk_size : Int) (j : Nat) (hj : j < sheet.maxCol) :
    1 ≤ ((extract_sheet_metadata sheet_name sheet chunk_size).columns.getD j
        defaultProfile).sampling_step ∧
    ∀ idx ∈ sampledRowIndices (sheet.maxRow : Int)
        (samplingStrategy (sheet.maxRow : Int) chunk_size).1
        (samplingStrategy (sheet.maxRow : Int) chunk_size).2,
      idx ≤ (sheet.maxRow : Int) := by
  constructor
  · rw [columns_getD sheet_name sheet chunk_size j hj]
    exact samplingStrategy_step_pos _ _
  · intro idx hidx
    exact sampledRowIndices_le _ _ _ _ hidx

/-- C6, witness at a concrete sheet. -/
theorem c6_sampling_step_and_indices_witness :
    0 < sheetA.maxCol ∧
    (1 ≤ ((extract_sheet_metadata "Sheet1" sheetA 1000).columns.getD 0
        defaultProfile).sampling_step ∧
      ∀ idx ∈ sampledRowIndices (sheetA.maxRow : Int)
          (samplingStrategy (sheetA.maxRow : Int) 1000).1
          (samplingStrategy (sheetA.maxRow : Int) 1000).2,
        idx ≤ (sheetA.maxRow : Int)) :=
  ⟨by decide, c6_sampling_step_and_indices "Sheet1" sheetA 1000 0 (by decide)⟩

/-- C7: for every finalized column profile, `null_count` plus the number of
non-null sampled values of that column equals `rows_sampled`. -/
theorem c7_null_count_partition (sheet_name : String) (sheet : SheetData)
    (chunk_size : Int) (j : Nat) (hj : j < sheet.maxCol) :
    ((extract_sheet_metadata sheet_name sheet chunk_size).columns.getD j
          defaultProfile).null_count
        + nonNullSampledCount sheet chunk_size j
      = ((extract_sheet_metadata sheet_name sheet chunk_size).columns.getD j
          defaultProfile).rows_sampled := by
  rw [columns_getD sheet_name sheet chunk_size j hj]
  show (colFold sheet chunk_size j).null_count + nonNullSampledCount sheet chunk_size j
      = numRowsSampled sheet chunk_size
  have h := foldl_colUpdate_null sheet j
    (sampledRowIndices (sheet.maxRow : Int)
      (samplingStrategy (sheet.maxRow : Int) chunk_size).1
      (samplingStrategy (sheet.maxRow : Int) chunk_size).2)
    (initColAcc sheet j)
  simp only [initColAcc, Nat.zero_add] at h
  simpa [colFold, nonNullSampledCount, numRowsSampled, initColAcc] using h

/-- C7, witness at a concrete sheet (column 1 has one null and one value). -/
theorem c7_null_count_partition_witness :
    1 < sheetA.maxCol ∧
    ((extract_sheet_metadata "Sheet1" sheetA 1000).columns.getD 1
          defaultProfile).null_count
        + nonNullSampledCount sheetA 1000 1
      = ((extract_sheet_metadata "Sheet1" sheetA 1000).columns.getD 1
          defaultProfile).rows_sampled :=
  ⟨by decide, c7_null_count_partition "Sheet1" sheetA 1000 1 (by decide)⟩

set_option maxRecDepth 8000000 in
/-- C8, counterexample: there is no internal cap on the unique-value set
during accumulation — on a sheet with 111 pairwise-distinct sampled values the
set grows to 111 entries, one per sampled row, strictly above 100 (the only
accumulation-time cap constant in the source, which applies to
`sample_values`) and above the final truncation lengths 5 and 10. -/
theorem c8_unique_set_uncapped_counterexample :
    ((extract_sheet_metadata "S" uniqSheetC8 1000).columns.getD 0
        defaultProfile).unique_values_count = 111 ∧
    ((extract_sheet_metadata "S" uniqSheetC8 1000).columns.getD 0
        defaultProfile).rows_sampled = 111 ∧
    (100 : Nat) < 111 := by
  refine ⟨?_, ?_, ?_⟩
  · decide
  · decide
  · decide

/-- C8, amended: `unique_values_count` is bounded above by `rows_sampled`;
the code maintains no size cap on the unique-value set during accumulation
(only each inserted string is truncated to 100 characters), so `rows_sampled`
is the only bound. -/
theorem c8_unique_count_le_rows_sampled (sheet_name : String) (sheet : SheetData)
    (chunk_size : Int) (j : Nat) (hj : j < sheet.maxCol) :
    ((extract_sheet_metadata sheet_name sheet chunk_size).columns.getD j
        defaultProfile).unique_values_count
      ≤ ((extract_sheet_metadata sheet_name sheet chunk_size).columns.getD j
        defaultProfile).rows_sampled := by
  rw [columns_getD sheet_name sheet chunk_size j hj]
  show (colFold sheet chunk_size j).unique_values_sample.length
      ≤ numRowsSampled sheet chunk_size
  have h := foldl_colUpdate_unique sheet j
    (sampledRowIndices (sheet.maxRow : Int)
      (samplingStrategy (sheet.maxRow : Int) chunk_size).1
      (samplingStrategy (sheet.maxRow : Int) chunk_size).2)
    (initColAcc sheet j)
  have h0 : (initColAcc sheet j).unique_values_sample.length = 0 := rfl
  rw [h0, Nat.zero_add] at h
  refine le_trans (by simpa [colFold] using h) ?_
  simpa [numRowsSampled] using List.countP_le_length _

/-- C8, witness for the amended theorem. -/
theorem c8_unique_count_le_rows_sampled_witness :
    0 < sheetA.maxCol ∧
    ((extract_sheet_metadata "Sheet1" sheetA 1000).columns.getD 0
        defaultProfile).unique_values_count
      ≤ ((extract_sheet_metadata "Sheet1" sheetA 1000).columns.getD 0
        defaultProfile).rows_sampled :=
  ⟨by decide, c8_unique_count_le_rows_sampled "Sheet1" sheetA 1000 0 (by decide)⟩

/-- C9: two extraction runs on the same workbook with the same chunk size and
different wall-clock timestamps produce identical structural metadata — sheet
row and column counts, data ranges, per-column `data_type`, `null_count`,
`rows_sampled`, `sampling_step`, and the aggregate statistics — the timestamp
only enters the `extraction_time` field. -/
theorem c9_structural_determinism (ex : ExcelMetadataExtractor) (wb : Workbook)
    (t1 t2 : String) :
    (extract_metadata ex wb t1).1.map structuralView
      = (extract_metadata ex wb t2).1.map structuralView := by
  unfold extract_metadata
  cases extractSheets ex.chunk_size wb.sheets <;> rfl

/-- C10: every sheet yields one `ColumnProfile` per column index
`1..max_column`, and the profile's name follows the header rule: the
stringified row-1 cell when non-None, else the synthetic `"Column_{n}"`. -/
theorem c10_header_names (sheet_name : String) (sheet : SheetData)
    (chunk_size : Int) :
    (extract_sheet_metadata sheet_name sheet chunk_size).columns.length
        = sheet.maxCol ∧
    ∀ j, j < sheet.maxCol →
      ((extract_sheet_metadata sheet_name sheet chunk_size).columns.getD j
          defaultProfile).name
        = specHeaderNameC10 sheet (j + 1) := by
  constructor
  · exact columns_length sheet_name sheet chunk_size
  · intro j hj
    rw [columns_getD sheet_name sheet chunk_size j hj]
    show (colFold sheet chunk_size j).name = _
    have h := foldl_colUpdate_name sheet j
      (sampledRowIndices (sheet.maxRow : Int)
        (samplingStrategy (sheet.maxRow : Int) chunk_size).1
        (samplingStrategy (sheet.maxRow : Int) chunk_size).2)
      (initColAcc sheet j)
    rw [show (colFold sheet chunk_size j).name = (initColAcc sheet j).name from h]
    show (headerNames sheet).getD j "" = _
    exact headerNames_getD sheet j hj

/-- C10, witness at a concrete sheet whose second header cell is empty. -/
theorem c10_header_names_witness :
    1 < sheetA.maxCol ∧
    ((extract_sheet_metadata "Sheet1" sheetA 1000).columns.getD 1
        defaultProfile).name = specHeaderNameC10 sheetA 2 ∧
    specHeaderNameC10 sheetA 2 = "Column_2" :=
  ⟨by decide, (c10_header_names "Sheet1" sheetA 1000).2 1 (by decide), by decide⟩

end LargeFileHandler
